import Mathlib

/-!
Verification of the Danaher strategic-capacity dashboard (`src/app.py`).

The script builds two in-memory tables (a 366-day quality time series and a
5×5 supplier-capability matrix), renders KPI cards with 30-row-lookback
deltas, and exposes a slider-driven efficiency calculator plus a fixed
cost-savings bar chart.  Randomness (`np.random.normal`,
`np.random.uniform`) is modelled by an explicit sample stream `ℕ → ℝ`
passed to the generators; the uniform stream carries the constraint that
`np.random.uniform (0.6, 0.95)` yields values in `[0.6, 0.95)`.
-/

namespace App

set_option maxRecDepth 8000

/-- Calendar date, modelling a pandas daily timestamp. -/
structure CalDate where
  year : ℕ
  month : ℕ
  day : ℕ
deriving DecidableEq, Repr

/-- Gregorian leap-year rule, as used by pandas date arithmetic. -/
def isLeapYear (y : ℕ) : Bool :=
  (y % 4 == 0 && y % 100 != 0) || y % 400 == 0

/-- Number of days in a month of a given year. -/
def daysInMonth (y m : ℕ) : ℕ :=
  if m = 2 then (if isLeapYear y then 29 else 28)
  else if m = 4 ∨ m = 6 ∨ m = 9 ∨ m = 11 then 30
  else 31

/-- Successor day in the Gregorian calendar. -/
def nextDay (d : CalDate) : CalDate :=
  if d.day < daysInMonth d.year d.month then ⟨d.year, d.month, d.day + 1⟩
  else if d.month < 12 then ⟨d.year, d.month + 1, 1⟩
  else ⟨d.year + 1, 1, 1⟩

/-- Inclusive daily range, modelling `pd.date_range (start, end, freq=D)`.
The fuel argument only bounds recursion; with enough fuel the list runs
from `cur` to `stop` inclusive. -/
def date_range (fuel : ℕ) (cur stop : CalDate) : List CalDate :=
  match fuel with
  | 0 => []
  | fuel + 1 => if cur = stop then [cur] else cur :: date_range fuel (nextDay cur) stop

/-- The `dates` index of `generate_time_series_data`:
`pd.date_range ('2023-01-01', '2024-01-01', freq='D')`. -/
def dates : List CalDate := date_range 400 ⟨2023, 1, 1⟩ ⟨2024, 1, 1⟩

/-- Daily frequency check: consecutive entries differ by exactly one day. -/
def isDailyChain : List CalDate → Bool
  | [] => true
  | [_] => true
  | a :: b :: rest => if b = nextDay a then isDailyChain (b :: rest) else false

set_option maxRecDepth 4000 in
lemma dates_length : dates.length = 366 := by decide

/-- Efficiency calculator: `current_efficiency = baseline_efficiency * 1.4`.
The slider yields an integer in `[0, 100]`. -/
def current_efficiency (baseline_efficiency : ℤ) : ℚ :=
  (baseline_efficiency : ℚ) * 1.4

/-- Cost-savings table `savings_data` (category names and dollar amounts). -/
structure SavingsData where
  Category : List String
  Savings : List ℤ

/-- The literal `savings_data` dictionary from the script. -/
def savings_data : SavingsData :=
  { Category := ["Process Optimization", "Equipment Reliability",
                 "Quality Improvement", "Supply Chain"]
    Savings := [400000, 300000, 200000, 100000] }

/-- Deterministic trend factor of First Pass Yield (`fpy` array before the
`* 100` scaling): `0.85 + 0.15 * (1 - exp (-0.003 * t))`. -/
noncomputable def fpy (t : ℕ) : ℝ :=
  0.85 + 0.15 * (1 - Real.exp (-0.003 * t))

/-- Deterministic trend factor of On-Time Delivery:
`0.88 + 0.12 * (1 - exp (-0.002 * t))`. -/
noncomputable def otd (t : ℕ) : ℝ :=
  0.88 + 0.12 * (1 - Real.exp (-0.002 * t))

/-- Process Capability Index series: `1.0 + 0.5 * (1 - exp (-0.002 * t))`. -/
noncomputable def cpk (t : ℕ) : ℝ :=
  1.0 + 0.5 * (1 - Real.exp (-0.002 * t))

/-- Equipment reliability factor: `0.90 + 0.1 * (1 - exp (-0.003 * t))`. -/
noncomputable def reliability (t : ℕ) : ℝ :=
  0.90 + 0.1 * (1 - Real.exp (-0.003 * t))

/-- Defects Per Million Parts series: `(2000 + normal noise) * exp (-0.002 * t)`,
with the normal samples given by the stream `noise`. -/
noncomputable def dppm (noise : ℕ → ℝ) (t : ℕ) : ℝ :=
  (2000 + noise t) * Real.exp (-0.002 * t)

/-- The time-series DataFrame: one column per key of the dictionary passed
to `pd.DataFrame` in `generate_time_series_data`. -/
structure TimeSeriesDF where
  Date : List CalDate
  DPPM : List ℝ
  First_Pass_Yield : List ℝ
  OTD : List ℝ
  Process_Cpk : List ℝ
  Equipment_Reliability : List ℝ

/-- The body of `generate_time_series_data`: each column is the
corresponding numpy array over `np.arange (len (dates))`, with the
percentage columns scaled by 100 as in the DataFrame construction. -/
noncomputable def generate_time_series_data (noise : ℕ → ℝ) : TimeSeriesDF :=
  { Date := dates
    DPPM := (List.range dates.length).map (fun t => dppm noise t)
    First_Pass_Yield := (List.range dates.length).map (fun t => fpy t * 100)
    OTD := (List.range dates.length).map (fun t => otd t * 100)
    Process_Cpk := (List.range dates.length).map (fun t => cpk t)
    Equipment_Reliability := (List.range dates.length).map (fun t => reliability t * 100) }

/-- Supplier names from `generate_supplier_data`. -/
def suppliers : List String :=
  ["Supplier A", "Supplier B", "Supplier C", "Supplier D", "Supplier E"]

/-- Capability dimensions from `generate_supplier_data`. -/
def capability_metrics : List String :=
  ["Quality", "Delivery", "Technical", "Cost", "Innovation"]

/-- The body of `generate_supplier_data`: a 5×5 row-major fill of the
uniform sample stream `u` (modelling `np.random.uniform (0.6, 0.95,
size=(5,5))`), scaled by 100. -/
noncomputable def generate_supplier_data (u : ℕ → ℝ) : List (List ℝ) :=
  (List.range suppliers.length).map (fun i =>
    (List.range capability_metrics.length).map (fun j =>
      u (i * capability_metrics.length + j) * 100))

/-- Validity of a stream modelling `np.random.uniform (0.6, 0.95)`:
numpy samples the half-open interval `[low, high)`. -/
def validUniformStream (u : ℕ → ℝ) : Prop :=
  ∀ k, 0.6 ≤ u k ∧ u k < 0.95

lemma getD_map_range {α : Type} (f : ℕ → α) (d : α) (n i : ℕ) (h : i < n) :
    ((List.range n).map f).getD i d = f i := by
  simp [List.getD_eq_getElem?_getD, List.getElem?_map, List.getElem?_range, h]

lemma fpy_col (noise : ℕ → ℝ) (t : ℕ) (ht : t < 366) :
    (generate_time_series_data noise).First_Pass_Yield.getD t 0 = fpy t * 100 := by
  show ((List.range dates.length).map (fun a => fpy a * 100)).getD t 0 = _
  rw [getD_map_range _ _ _ _ (by rw [dates_length]; exact ht)]

lemma otd_col (noise : ℕ → ℝ) (t : ℕ) (ht : t < 366) :
    (generate_time_series_data noise).OTD.getD t 0 = otd t * 100 := by
  show ((List.range dates.length).map (fun a => otd a * 100)).getD t 0 = _
  rw [getD_map_range _ _ _ _ (by rw [dates_length]; exact ht)]

lemma cpk_col (noise : ℕ → ℝ) (t : ℕ) (ht : t < 366) :
    (generate_time_series_data noise).Process_Cpk.getD t 0 = cpk t := by
  show ((List.range dates.length).map (fun a => cpk a)).getD t 0 = _
  rw [getD_map_range _ _ _ _ (by rw [dates_length]; exact ht)]

lemma rel_col (noise : ℕ → ℝ) (t : ℕ) (ht : t < 366) :
    (generate_time_series_data noise).Equipment_Reliability.getD t 0 = reliability t * 100 := by
  show ((List.range dates.length).map (fun a => reliability a * 100)).getD t 0 = _
  rw [getD_map_range _ _ _ _ (by rw [dates_length]; exact ht)]

lemma dppm_col (noise : ℕ → ℝ) (t : ℕ) (ht : t < 366) :
    (generate_time_series_data noise).DPPM.getD t 0 = (2000 + noise t) * Real.exp (-0.002 * t) := by
  show ((List.range dates.length).map (fun a => dppm noise a)).getD t 0 = _
  rw [getD_map_range _ _ _ _ (by rw [dates_length]; exact ht)]
  rfl

lemma supplier_row (u : ℕ → ℝ) (i : ℕ) (hi : i < 5) :
    (generate_supplier_data u).getD i []
      = (List.range 5).map (fun b => u (i * 5 + b) * 100) := by
  show ((List.range 5).map
      (fun a => (List.range 5).map (fun b => u (a * 5 + b) * 100))).getD i [] = _
  rw [getD_map_range _ _ _ _ hi]

lemma supplier_cell (u : ℕ → ℝ) (i j : ℕ) (hi : i < 5) (hj : j < 5) :
    ((generate_supplier_data u).getD i []).getD j 0 = u (i * 5 + j) * 100 := by
  rw [supplier_row u i hi, getD_map_range _ _ _ _ hj]

/-- C1: for every slider value b in [0,100], the displayed current
efficiency equals 1.4 times b. -/
theorem current_efficiency_is_1p4_times_baseline
    (b : ℤ) (_h0 : 0 ≤ b) (_h1 : b ≤ 100) :
    current_efficiency b = 1.4 * (b : ℚ) := by
  unfold current_efficiency
  ring

theorem current_efficiency_witness :
    (0 : ℤ) ≤ 60 ∧ (60 : ℤ) ≤ 100 ∧ current_efficiency 60 = 1.4 * ((60 : ℤ) : ℚ) :=
  ⟨by decide, by decide,
    current_efficiency_is_1p4_times_baseline 60 (by decide) (by decide)⟩

/-- C2: the four cost-saving categories sum to exactly 1,000,000 dollars. -/
theorem savings_sum_to_one_million :
    savings_data.Savings.sum = 1000000 ∧
    savings_data.Savings.length = 4 ∧ savings_data.Category.length = 4 := by
  decide

/-- C3 counterexample: the equipment-reliability percentage column can
never exceed 100% — on every run (every noise stream) and at every row
index, the stored value stays below 100, because the deterministic
formula `(0.90 + 0.1 * (1 - exp (-0.003 t))) * 100` is bounded above by
`100 - 10 * exp (-0.003 t) < 100`. -/
theorem reliability_cannot_exceed_100 :
    ¬ ∃ (noise : ℕ → ℝ) (i : ℕ), i < 366 ∧
      100 < (generate_time_series_data noise).Equipment_Reliability.getD i 0 := by
  rintro ⟨noise, i, hi, hgt⟩
  rw [rel_col noise i hi] at hgt
  unfold reliability at hgt
  have hpos := Real.exp_pos (-0.003 * (i : ℝ))
  nlinarith

/-- C3 amended: no clamping is applied — every equipment-reliability cell
holds the raw formula value `reliability i * 100` — and that value is
strictly below 100 for every day index on every run. -/
theorem reliability_unclamped_below_100 (noise : ℕ → ℝ) (i : ℕ) (hi : i < 366) :
    (generate_time_series_data noise).Equipment_Reliability.getD i 0 = reliability i * 100
  ∧ (generate_time_series_data noise).Equipment_Reliability.getD i 0 < 100 := by
  refine ⟨rel_col noise i hi, ?_⟩
  rw [rel_col noise i hi]
  unfold reliability
  have hpos := Real.exp_pos (-0.003 * (i : ℝ))
  nlinarith

theorem reliability_unclamped_below_100_witness :
    (0 : ℕ) < 366 ∧
    ((generate_time_series_data (fun _ => 0)).Equipment_Reliability.getD 0 0
        = reliability 0 * 100
     ∧ (generate_time_series_data (fun _ => 0)).Equipment_Reliability.getD 0 0 < 100) :=
  ⟨by norm_num, reliability_unclamped_below_100 (fun _ => 0) 0 (by norm_num)⟩

/-- C4: every percentage cell of the generated table is the closed-form
exponential-approach expression of its day index: first-pass yield is
`100 * (0.85 + 0.15 * (1 - exp (-0.003 t)))`, on-time delivery is
`100 * (0.88 + 0.12 * (1 - exp (-0.002 t)))`, and equipment reliability is
`100 * (0.90 + 0.1 * (1 - exp (-0.003 t)))`. -/
theorem series_closed_form (noise : ℕ → ℝ) (t : ℕ) (ht : t < 366) :
    (generate_time_series_data noise).First_Pass_Yield.getD t 0
      = 100 * (0.85 + 0.15 * (1 - Real.exp (-0.003 * t)))
  ∧ (generate_time_series_data noise).OTD.getD t 0
      = 100 * (0.88 + 0.12 * (1 - Real.exp (-0.002 * t)))
  ∧ (generate_time_series_data noise).Equipment_Reliability.getD t 0
      = 100 * (0.90 + 0.1 * (1 - Real.exp (-0.003 * t))) := by
  refine ⟨?_, ?_, ?_⟩
  · rw [fpy_col noise t ht]; unfold fpy; ring
  · rw [otd_col noise t ht]; unfold otd; ring
  · rw [rel_col noise t ht]; unfold reliability; ring

theorem series_closed_form_witness :
    (0 : ℕ) < 366 ∧
    ((generate_time_series_data (fun _ => 0)).First_Pass_Yield.getD 0 0
        = 100 * (0.85 + 0.15 * (1 - Real.exp (-0.003 * ((0 : ℕ) : ℝ))))
     ∧ (generate_time_series_data (fun _ => 0)).OTD.getD 0 0
        = 100 * (0.88 + 0.12 * (1 - Real.exp (-0.002 * ((0 : ℕ) : ℝ))))
     ∧ (generate_time_series_data (fun _ => 0)).Equipment_Reliability.getD 0 0
        = 100 * (0.90 + 0.1 * (1 - Real.exp (-0.003 * ((0 : ℕ) : ℝ))))) :=
  ⟨by norm_num, series_closed_form (fun _ => 0) 0 (by norm_num)⟩

/-- C5: the generated table has 366 rows in every column, the date index
runs from 2023-01-01 to 2024-01-01 at daily steps, and the columns are
exactly Date, DPPM, First_Pass_Yield, OTD, Process_Cpk and
Equipment_Reliability (the six fields of `TimeSeriesDF`). -/
theorem time_series_shape (noise : ℕ → ℝ) :
    (generate_time_series_data noise).Date.length = 366
  ∧ (generate_time_series_data noise).DPPM.length = 366
  ∧ (generate_time_series_data noise).First_Pass_Yield.length = 366
  ∧ (generate_time_series_data noise).OTD.length = 366
  ∧ (generate_time_series_data noise).Process_Cpk.length = 366
  ∧ (generate_time_series_data noise).Equipment_Reliability.length = 366
  ∧ (generate_time_series_data noise).Date.head? = some ⟨2023, 1, 1⟩
  ∧ (generate_time_series_data noise).Date.getLast? = some ⟨2024, 1, 1⟩
  ∧ isDailyChain (generate_time_series_data noise).Date = true := by
  refine ⟨?_, ?_, ?_, ?_, ?_, ?_, ?_, ?_, ?_⟩
  · show dates.length = 366
    exact dates_length
  · show ((List.range dates.length).map (fun a => dppm noise a)).length = 366
    simp [dates_length]
  · show ((List.range dates.length).map (fun a => fpy a * 100)).length = 366
    simp [dates_length]
  · show ((List.range dates.length).map (fun a => otd a * 100)).length = 366
    simp [dates_length]
  · show ((List.range dates.length).map (fun a => cpk a)).length = 366
    simp [dates_length]
  · show ((List.range dates.length).map (fun a => reliability a * 100)).length = 366
    simp [dates_length]
  · show dates.head? = some ⟨2023, 1, 1⟩
    decide
  · show dates.getLast? = some ⟨2024, 1, 1⟩
    decide
  · show isDailyChain dates = true
    decide

/-- C6: the supplier-capability table has 5 rows and 5 columns, and the
cell at (i, j) is 100 times the uniform sample drawn for that cell. -/
theorem supplier_matrix_shape (u : ℕ → ℝ) (i j : ℕ) (hi : i < 5) (hj : j < 5) :
    (generate_supplier_data u).length = 5
  ∧ ((generate_supplier_data u).getD i []).length = 5
  ∧ ((generate_supplier_data u).getD i []).getD j 0 = u (i * 5 + j) * 100
  ∧ suppliers.length = 5 ∧ capability_metrics.length = 5 := by
  refine ⟨?_, ?_, supplier_cell u i j hi hj, by decide, by decide⟩
  · show ((List.range 5).map
        (fun a => (List.range 5).map (fun b => u (a * 5 + b) * 100))).length = 5
    simp
  · rw [supplier_row u i hi]
    simp

theorem supplier_matrix_shape_witness :
    (0 : ℕ) < 5 ∧
    ((generate_supplier_data (fun _ => 0.7)).length = 5
     ∧ ((generate_supplier_data (fun _ => 0.7)).getD 0 []).length = 5
     ∧ ((generate_supplier_data (fun _ => 0.7)).getD 0 []).getD 0 0
          = (fun _ : ℕ => (0.7 : ℝ)) (0 * 5 + 0) * 100
     ∧ suppliers.length = 5 ∧ capability_metrics.length = 5) :=
  ⟨by norm_num, supplier_matrix_shape (fun _ => 0.7) 0 0 (by norm_num) (by norm_num)⟩

/-- C7: the generators are genuinely random-dependent — there are valid
sample streams (admissible outputs of the unseeded RNG) on which the two
generators produce different tables, so neither table is a deterministic
function of the program alone. -/
theorem generators_depend_on_randomness :
    (∃ n₁ n₂ : ℕ → ℝ,
        generate_time_series_data n₁ ≠ generate_time_series_data n₂)
  ∧ (∃ u₁ u₂ : ℕ → ℝ, validUniformStream u₁ ∧ validUniformStream u₂ ∧
        generate_supplier_data u₁ ≠ generate_supplier_data u₂) := by
  constructor
  · refine ⟨fun _ => 0, fun _ => 1, fun h => ?_⟩
    have h0 := congrArg (fun df => df.DPPM.getD 0 0) h
    simp only at h0
    rw [dppm_col (fun _ => 0) 0 (by norm_num),
        dppm_col (fun _ => 1) 0 (by norm_num)] at h0
    have hexp := Real.exp_pos (-0.002 * ((0 : ℕ) : ℝ))
    nlinarith
  · refine ⟨fun _ => 0.6, fun _ => 0.7, fun _ => ⟨le_refl _, by norm_num⟩,
      fun _ => ⟨by norm_num, by norm_num⟩, fun h => ?_⟩
    have h0 := congrArg (fun m => (m.getD 0 []).getD 0 0) h
    simp only at h0
    rw [supplier_cell (fun _ => 0.6) 0 0 (by norm_num) (by norm_num),
        supplier_cell (fun _ => 0.7) 0 0 (by norm_num) (by norm_num)] at h0
    norm_num at h0

/-- Row access `df.iloc[-1]` restricted to one numeric column. -/
noncomputable def latest_metric (col : List ℝ) : ℝ :=
  col.getD (col.length - 1) 0

/-- KPI-card delta as the script computes it: the value in the last row
minus the value in the row `df.iloc[-30]`, i.e. at index `length - 30`. -/
noncomputable def metric_delta (col : List ℝ) : ℝ :=
  latest_metric col - col.getD (col.length - 30) 0

lemma metric_delta_map_range (f : ℕ → ℝ) :
    metric_delta ((List.range dates.length).map f) = f 365 - f 336 := by
  unfold metric_delta latest_metric
  rw [List.length_map, List.length_range, dates_length]
  norm_num [getD_map_range _ _ _ _ (by norm_num : (365 : ℕ) < 366),
    getD_map_range _ _ _ _ (by norm_num : (336 : ℕ) < 366)]

/-- C8: for every run, each KPI-card delta equals the last-row value minus
the value at index `length - 30 = 336`; since the last row has day index
365, the change is measured over a 29-day window (365 - 336 = 29). -/
theorem kpi_delta_is_29_day_window (noise : ℕ → ℝ) :
    metric_delta (generate_time_series_data noise).First_Pass_Yield
      = fpy 365 * 100 - fpy (365 - 29) * 100
  ∧ metric_delta (generate_time_series_data noise).OTD
      = otd 365 * 100 - otd (365 - 29) * 100
  ∧ metric_delta (generate_time_series_data noise).Process_Cpk
      = cpk 365 - cpk (365 - 29)
  ∧ metric_delta (generate_time_series_data noise).Equipment_Reliability
      = reliability 365 * 100 - reliability (365 - 29) * 100 := by
  refine ⟨?_, ?_, ?_, ?_⟩
  · show metric_delta ((List.range dates.length).map (fun a => fpy a * 100)) = _
    rw [metric_delta_map_range]
  · show metric_delta ((List.range dates.length).map (fun a => otd a * 100)) = _
    rw [metric_delta_map_range]
  · show metric_delta ((List.range dates.length).map (fun a => cpk a)) = _
    rw [metric_delta_map_range]
  · show metric_delta ((List.range dates.length).map (fun a => reliability a * 100)) = _
    rw [metric_delta_map_range]

lemma exp_neg_strict_anti (c : ℝ) (hc : 0 < c) (s t : ℕ) (hst : s < t) :
    Real.exp (-c * t) < Real.exp (-c * s) := by
  apply Real.exp_lt_exp.mpr
  have h : (s : ℝ) < t := by exact_mod_cast hst
  nlinarith

/-- C9: within the 366-day range, the four deterministic table columns
(first-pass yield, on-time delivery, process Cpk, equipment reliability)
are strictly increasing in the day index. -/
theorem series_strictly_increasing (noise : ℕ → ℝ) (s t : ℕ)
    (hst : s < t) (ht : t < 366) :
    (generate_time_series_data noise).First_Pass_Yield.getD s 0
      < (generate_time_series_data noise).First_Pass_Yield.getD t 0
  ∧ (generate_time_series_data noise).OTD.getD s 0
      < (generate_time_series_data noise).OTD.getD t 0
  ∧ (generate_time_series_data noise).Process_Cpk.getD s 0
      < (generate_time_series_data noise).Process_Cpk.getD t 0
  ∧ (generate_time_series_data noise).Equipment_Reliability.getD s 0
      < (generate_time_series_data noise).Equipment_Reliability.getD t 0 := by
  have hs : s < 366 := lt_trans hst ht
  have h3 := exp_neg_strict_anti 0.003 (by norm_num) s t hst
  have h2 := exp_neg_strict_anti 0.002 (by norm_num) s t hst
  refine ⟨?_, ?_, ?_, ?_⟩
  · rw [fpy_col noise s hs, fpy_col noise t ht]
    unfold fpy
    nlinarith
  · rw [otd_col noise s hs, otd_col noise t ht]
    unfold otd
    nlinarith
  · rw [cpk_col noise s hs, cpk_col noise t ht]
    unfold cpk
    nlinarith
  · rw [rel_col noise s hs, rel_col noise t ht]
    unfold reliability
    nlinarith

theorem series_strictly_increasing_witness :
    (0 : ℕ) < 1 ∧ (1 : ℕ) < 366 ∧
    ((generate_time_series_data (fun _ => 0)).First_Pass_Yield.getD 0 0
        < (generate_time_series_data (fun _ => 0)).First_Pass_Yield.getD 1 0
     ∧ (generate_time_series_data (fun _ => 0)).OTD.getD 0 0
        < (generate_time_series_data (fun _ => 0)).OTD.getD 1 0
     ∧ (generate_time_series_data (fun _ => 0)).Process_Cpk.getD 0 0
        < (generate_time_series_data (fun _ => 0)).Process_Cpk.getD 1 0
     ∧ (generate_time_series_data (fun _ => 0)).Equipment_Reliability.getD 0 0
        < (generate_time_series_data (fun _ => 0)).Equipment_Reliability.getD 1 0) :=
  ⟨by norm_num, by norm_num,
    series_strictly_increasing (fun _ => 0) 0 1 (by norm_num) (by norm_num)⟩

/-- C10: for every admissible uniform sample stream, every cell of the
supplier-capability matrix lies in the interval [60, 95]. -/
theorem supplier_cells_between_60_and_95 (u : ℕ → ℝ)
    (hu : validUniformStream u) (i j : ℕ) (hi : i < 5) (hj : j < 5) :
    60 ≤ ((generate_supplier_data u).getD i []).getD j 0
  ∧ ((generate_supplier_data u).getD i []).getD j 0 ≤ 95 := by
  rw [supplier_cell u i j hi hj]
  obtain ⟨hlo, hhi⟩ := hu (i * 5 + j)
  constructor
  · nlinarith
  · nlinarith

theorem supplier_cells_between_60_and_95_witness :
    validUniformStream (fun _ => 0.7) ∧
    (60 ≤ ((generate_supplier_data (fun _ => 0.7)).getD 0 []).getD 0 0
     ∧ ((generate_supplier_data (fun _ => 0.7)).getD 0 []).getD 0 0 ≤ 95) :=
  ⟨fun _ => ⟨by norm_num, by norm_num⟩,
    supplier_cells_between_60_and_95 (fun _ => 0.7)
      (fun _ => ⟨by norm_num, by norm_num⟩) 0 0 (by norm_num) (by norm_num)⟩

end App
